import Mathlib

/-!
Verification development for the document-classification pipeline of
`src/hooks/use-document-classifier.ts` and the chat-history loader of
`src/hooks/use-document-chat.ts` in the Global-Tax-Document-Classifier
repository.

The embedding is shallow: the pure extraction/validation/status logic is
translated to executable Lean functions, and the stateful cache / in-flight
behaviour is translated to explicit state passing with an environment record
standing for the outcomes of the external effects (clock, file fetch, model
endpoint, database).  JavaScript runtime primitives used by the source
(`JSON.parse`, `String.prototype.match` with the five extraction regexes,
`String.prototype.trim`, `parseFloat`) are modelled faithfully for the ASCII
inputs the pipeline handles; Unicode whitespace classes and UTF-16 surrogate
pairing inside `\u` escapes are not modelled.
-/

/-- A JavaScript number as it occurs in this pipeline: `NaN`, a signed
infinity, or a finite value.  Finite values are modelled as rationals: the
pipeline only parses decimal literals and stores them, it never computes with
them, so the binary-float rounding of JS is irrelevant to every claim. -/
inductive JSNumber where
  | nan : JSNumber
  | inf : Bool → JSNumber
  | val : ℚ → JSNumber
deriving DecidableEq

/-- A JavaScript value as produced by `JSON.parse` and as stored in the
fields of a classification result. -/
inductive JSValue where
  | undef : JSValue
  | null : JSValue
  | bool : Bool → JSValue
  | num : JSNumber → JSValue
  | str : String → JSValue
  | arr : List JSValue → JSValue
  | obj : List (String × JSValue) → JSValue

/-- JSON insignificant whitespace (RFC 8259, as used by `JSON.parse`). -/
def jsonWsChar (c : Char) : Bool :=
  c == ' ' || c == '\t' || c == '\n' || c == '\r'

/-- Skip JSON whitespace. -/
def skipWs (l : List Char) : List Char := l.dropWhile jsonWsChar

/-- Hexadecimal digit value, for `\u` escapes. -/
def hexVal (c : Char) : Option ℕ :=
  if '0' ≤ c ∧ c ≤ '9' then some (c.toNat - 48)
  else if 'a' ≤ c ∧ c ≤ 'f' then some (c.toNat - 87)
  else if 'A' ≤ c ∧ c ≤ 'F' then some (c.toNat - 55)
  else none

/-- Body of a JSON string literal, after the opening quote: returns the
decoded characters and the remaining input.  Control characters below U+0020
are rejected, escapes follow `JSON.parse` (lone-surrogate `\u` escapes,
unrepresentable in Lean `Char`, are mapped through `Char.ofNat`). -/
def jsonStringBody : List Char → Option (List Char × List Char)
  | [] => none
  | '"' :: rest => some ([], rest)
  | '\\' :: rest =>
    match rest with
    | '"' :: r => (jsonStringBody r).map (fun p => ('"' :: p.1, p.2))
    | '\\' :: r => (jsonStringBody r).map (fun p => ('\\' :: p.1, p.2))
    | '/' :: r => (jsonStringBody r).map (fun p => ('/' :: p.1, p.2))
    | 'b' :: r => (jsonStringBody r).map (fun p => ('\x08' :: p.1, p.2))
    | 'f' :: r => (jsonStringBody r).map (fun p => ('\x0c' :: p.1, p.2))
    | 'n' :: r => (jsonStringBody r).map (fun p => ('\n' :: p.1, p.2))
    | 'r' :: r => (jsonStringBody r).map (fun p => ('\r' :: p.1, p.2))
    | 't' :: r => (jsonStringBody r).map (fun p => ('\t' :: p.1, p.2))
    | 'u' :: h1 :: h2 :: h3 :: h4 :: r =>
      match hexVal h1, hexVal h2, hexVal h3, hexVal h4 with
      | some a, some b, some c, some d =>
        (jsonStringBody r).map
          (fun p => (Char.ofNat (4096 * a + 256 * b + 16 * c + d) :: p.1, p.2))
      | _, _, _, _ => none
    | _ => none
  | c :: rest =>
    if c.toNat < 32 then none
    else (jsonStringBody rest).map (fun p => (c :: p.1, p.2))

/-- Decimal value of a digit run. -/
def digitsToNat (l : List Char) : ℕ :=
  l.foldl (fun a c => 10 * a + (c.toNat - 48)) 0

/-- Optional exponent part of a JSON number, applied to the already-parsed
mantissa. -/
def jsonNumberExp (neg : Bool) (mant : ℚ) (l : List Char) :
    Option (ℚ × List Char) :=
  match l with
  | e :: r =>
    if e == 'e' || e == 'E' then
      let (eneg, r1) :=
        match r with
        | '+' :: rr => (false, rr)
        | '-' :: rr => (true, rr)
        | _ => (false, r)
      let ds := r1.takeWhile Char.isDigit
      if ds.isEmpty then none
      else
        let ex : ℤ := if eneg then -(digitsToNat ds : ℤ) else (digitsToNat ds : ℤ)
        some ((if neg then -mant else mant) * (10 : ℚ) ^ ex, r1.drop ds.length)
    else some ((if neg then -mant else mant), l)
  | [] => some ((if neg then -mant else mant), [])

/-- Optional fraction part of a JSON number (then exponent). -/
def jsonNumberFrac (neg : Bool) (ip : ℕ) (l : List Char) :
    Option (ℚ × List Char) :=
  match l with
  | '.' :: r =>
    let ds := r.takeWhile Char.isDigit
    if ds.isEmpty then none
    else
      jsonNumberExp neg ((ip : ℚ) + (digitsToNat ds : ℚ) / (10 : ℚ) ^ ds.length)
        (r.drop ds.length)
  | _ => jsonNumberExp neg (ip : ℚ) l

/-- A JSON number literal: `-?(0|[1-9][0-9]*)(\.[0-9]+)?([eE][+-]?[0-9]+)?`. -/
def jsonNumber (l : List Char) : Option (ℚ × List Char) :=
  let (neg, l1) := match l with | '-' :: r => (true, r) | _ => (false, l)
  match l1 with
  | '0' :: r =>
    if (r.headD ' ').isDigit then none else jsonNumberFrac neg 0 r
  | c :: r =>
    if c.isDigit then
      let ds := (c :: r).takeWhile Char.isDigit
      jsonNumberFrac neg (digitsToNat ds) ((c :: r).drop ds.length)
    else none
  | [] => none

mutual

/-- A JSON value, fuel-indexed recursive-descent parser mirroring
`JSON.parse`.  Returns the value and the unconsumed input. -/
def parseJValue : ℕ → List Char → Option (JSValue × List Char)
  | 0, _ => none
  | Nat.succ n, l =>
    match skipWs l with
    | 'n' :: 'u' :: 'l' :: 'l' :: r => some (JSValue.null, r)
    | 't' :: 'r' :: 'u' :: 'e' :: r => some (JSValue.bool true, r)
    | 'f' :: 'a' :: 'l' :: 's' :: 'e' :: r => some (JSValue.bool false, r)
    | '"' :: r => (jsonStringBody r).map (fun p => (JSValue.str (String.mk p.1), p.2))
    | '[' :: r =>
      match skipWs r with
      | ']' :: r2 => some (JSValue.arr [], r2)
      | _ => (parseJItems n r).map (fun p => (JSValue.arr p.1, p.2))
    | '{' :: r =>
      match skipWs r with
      | '}' :: r2 => some (JSValue.obj [], r2)
      | _ => (parseJFields n r).map (fun p => (JSValue.obj p.1, p.2))
    | l2 => (jsonNumber l2).map (fun p => (JSValue.num (JSNumber.val p.1), p.2))

/-- Comma-separated JSON array items up to `]`. -/
def parseJItems : ℕ → List Char → Option (List JSValue × List Char)
  | 0, _ => none
  | Nat.succ n, l =>
    match parseJValue n l with
    | none => none
    | some (v, r) =>
      match skipWs r with
      | ',' :: r2 => (parseJItems n r2).map (fun p => (v :: p.1, p.2))
      | ']' :: r2 => some ([v], r2)
      | _ => none

/-- Comma-separated JSON object members up to `}`. -/
def parseJFields : ℕ → List Char → Option (List (String × JSValue) × List Char)
  | 0, _ => none
  | Nat.succ n, l =>
    match skipWs l with
    | '"' :: r =>
      match jsonStringBody r with
      | none => none
      | some (k, r1) =>
        match skipWs r1 with
        | ':' :: r2 =>
          match parseJValue n r2 with
          | none => none
          | some (v, r3) =>
            match skipWs r3 with
            | ',' :: r4 => (parseJFields n r4).map (fun p => ((String.mk k, v) :: p.1, p.2))
            | '}' :: r4 => some ([(String.mk k, v)], r4)
            | _ => none
        | _ => none
    | _ => none

end

/-- `JSON.parse` on a whole string: a single value with only whitespace
around it, `none` where `JSON.parse` throws.  The fuel `2·|s|+2` dominates
the recursion depth, since every two fuel steps consume at least one
character. -/
def jsonParse (s : String) : Option JSValue :=
  match parseJValue (2 * s.data.length + 2) s.data with
  | some (v, r) => if (skipWs r).isEmpty then some v else none
  | none => none

/-- JavaScript `\s` / `trim` whitespace, restricted to the ASCII range plus
NBSP (the model does not cover the other Unicode space separators, which no
input of this pipeline contains). -/
def jsWsChar (c : Char) : Bool :=
  c == ' ' || c == '\t' || c == '\n' || c == '\r' ||
  c == '\x0b' || c == '\x0c' || c == '\xa0'

/-- `String.prototype.trim`. -/
def trimJS (s : String) : String :=
  String.mk (((s.data.dropWhile jsWsChar).reverse.dropWhile jsWsChar).reverse)

/-- `parseFloat`: skip leading whitespace, optional sign, then either
`Infinity` or the longest decimal-literal prefix (digits, optional `.` and
fraction digits, optional exponent); `NaN` when no digit is found. -/
def parseFloatJS (s : String) : JSNumber :=
  let l := s.data.dropWhile jsWsChar
  let (neg, l1) :=
    match l with
    | '-' :: r => (true, r)
    | '+' :: r => (false, r)
    | _ => (false, l)
  match l1 with
  | 'I' :: 'n' :: 'f' :: 'i' :: 'n' :: 'i' :: 't' :: 'y' :: _ => JSNumber.inf neg
  | _ =>
    let ip := l1.takeWhile Char.isDigit
    let l2 := l1.drop ip.length
    let (fp, l3) :=
      match l2 with
      | '.' :: r => (r.takeWhile Char.isDigit, r.drop (r.takeWhile Char.isDigit).length)
      | _ => ([], l2)
    if ip.isEmpty && fp.isEmpty then JSNumber.nan
    else
      let mant : ℚ := (digitsToNat ip : ℚ) + (digitsToNat fp : ℚ) / (10 : ℚ) ^ fp.length
      let ex : ℤ :=
        match l3 with
        | e :: r =>
          if e == 'e' || e == 'E' then
            let (eneg, r1) :=
              match r with
              | '+' :: rr => (false, rr)
              | '-' :: rr => (true, rr)
              | _ => (false, r)
            let ds := r1.takeWhile Char.isDigit
            if ds.isEmpty then 0
            else if eneg then -(digitsToNat ds : ℤ) else (digitsToNat ds : ℤ)
          else 0
        | [] => 0
      JSNumber.val ((if neg then -mant else mant) * (10 : ℚ) ^ ex)

/-- Case-insensitive character comparison (the `i` regex flag). -/
def ciEqChar (a b : Char) : Bool := a.toLower == b.toLower

/-- Does `pat` occur case-insensitively at the head of `l`? -/
def ciStartsWith : List Char → List Char → Bool
  | [], _ => true
  | _ :: _, [] => false
  | a :: as, b :: bs => ciEqChar a b && ciStartsWith as bs

/-- Backtracking step of the `\s*([^\n*]+)` regex tail: when the character
after the maximal whitespace run cannot start the capture (end of input or
`*`), the greedy `\s*` gives characters back one at a time; the capture then
starts at the last whitespace character that is not `\n` and is immediately
cut off, so it is that single character. -/
def backWs (w : List Char) : Option (List Char) :=
  match (w.reverse.dropWhile (fun c => c == '\n')) with
  | c :: _ => some [c]
  | [] => none

/-- The `\s*([^\n*]+)` tail of each extraction regex
(`/Label:\s*([^\n*]+)/i`), with the greedy backtracking of the JS engine:
skip the maximal whitespace run, capture the following run of characters
other than `\n` and `*`; if no such character follows, backtrack into the
whitespace run. -/
def captureTail (l : List Char) : Option (List Char) :=
  let w := l.takeWhile jsWsChar
  let rest := l.drop w.length
  match rest with
  | c :: _ =>
    if c == '*' then backWs w
    else some (rest.takeWhile (fun d => !(d == '\n' || d == '*')))
  | [] => backWs w

/-- Leftmost match of `/label\s*([^\n*]+)/i` over the input, where `label`
is the literal field label including its colon: the capture group of the
first position at which the whole regex matches, as returned by
`String.prototype.match`. -/
def findLabelCapture (label : List Char) : List Char → Option (List Char)
  | [] => none
  | c :: rest =>
    if ciStartsWith label (c :: rest) then
      match captureTail ((c :: rest).drop label.length) with
      | some cap => some cap
      | none => findLabelCapture label rest
    else findLabelCapture label rest

/-- The per-country, per-category taxonomy of `src/lib/tax-schema.ts`,
transcribed verbatim. -/
def taxSchema : List (String × List (String × List String)) := [
  ("India", [
    ("CompanyDocuments", [
      "Certificate of Incorporation", "PAN Card", "TAN Registration Certificate",
      "GST Registration Certificate", "MOA and AOA", "Business/Trade License",
      "Shops & Establishment Registration", "Professional Tax Registration",
      "Import Export Code (IEC)", "Annual Financial Statements",
      "Tax Audit Reports (Form 3CA/3CB & 3CD)", "Income Tax Returns (ITR copies)",
      "GST Returns (GSTR-1, GSTR-3B, GSTR-9)", "PF and ESI Registration",
      "PF and ESI Challans and Returns", "Board Resolutions", "Director KYC (DIR-3)"]),
    ("EmployeeDocuments", [
      "PAN Card", "Aadhaar Card", "Form 16", "Salary Slips", "Bank Statements",
      "Investment Proofs", "Previous Employment Form 16", "Medical Insurance Proof",
      "Rent Receipts", "Loan Certificates", "LTA Proofs"])]),
  ("Germany", [
    ("CompanyDocuments", [
      "Trade Registration Certificate", "VAT Registration", "Articles of Association",
      "Handelsregisterauszug", "Annual Financial Statements",
      "Tax Number Assignment Letter", "Tax Assessment Notices", "VAT Returns",
      "Social Security Registration"]),
    ("EmployeeDocuments", [
      "Steueridentifikationsnummer", "Sozialversicherungsausweis",
      "Salary Certificates", "ELSTER Reports", "Health Insurance Certificate",
      "Lohnsteuerbescheinigung", "Previous Employer Salary Proof",
      "Pension Contribution Proofs"])]),
  ("China", [
    ("CompanyDocuments", [
      "Business License", "Organization Code Certificate", "Tax Registration Certificate",
      "Social Insurance Registration", "VAT Registration Certificate",
      "Financial Statements", "Corporate Income Tax Return", "VAT Returns",
      "Tax Clearance Certificate"]),
    ("EmployeeDocuments", [
      "National ID Card", "Labor Contract Copy", "Payslips", "IIT Payment Certificates",
      "Social Insurance Contribution Record", "Housing Provident Fund Contribution Proof",
      "Previous Employer Income Proof", "Residence Permit"])]),
  ("USA", [
    ("CompanyDocuments", [
      "Certificate of Incorporation / Formation", "EIN", "State Tax Registration Certificate",
      "IRS Tax Filings", "Financial Statements", "State Annual Reports",
      "W-2 Forms for employees", "1099 Forms for contractors", "Payroll Tax Returns",
      "Sales Tax Registration and Returns"]),
    ("EmployeeDocuments", [
      "Social Security Number (SSN)", "W-2 Forms", "1099-NEC", "Paystubs",
      "Investment Proofs", "Health Insurance Documents", "Previous Employer Pay Records",
      "Mortgage or Student Loan Interest Statements"])]),
  ("Japan", [
    ("CompanyDocuments", [
      "Certificate of Registered Matters", "Corporate Number Notification",
      "Articles of Incorporation", "Business License", "Tax Payment Slips",
      "Consumption Tax Return", "Financial Statements", "Annual Corporate Tax Return",
      "Labor Insurance Registration Certificate", "Social Insurance Participation Certificate"]),
    ("EmployeeDocuments", [
      "My Number Card", "Gensen Chōshūhyō", "Salary Statements", "Health Insurance Card",
      "Employment Contract", "Residence Card", "Previous Employer Gensen Chōshūhyō"])]),
  ("UAE", [
    ("CompanyDocuments", [
      "Trade License", "VAT Registration Certificate", "Corporate Bank Account Proof",
      "Memorandum of Association (MOA)", "Certificate of Incorporation",
      "Lease Agreement (Ejari)", "Financial Audit Reports", "VAT Returns Filing Receipts",
      "UBO Declaration"]),
    ("EmployeeDocuments", [
      "Emirates ID", "Labor Contract", "Passport Copy", "Visa Copy", "Salary Certificates",
      "Payslips", "Health Insurance Card", "WPS Salary Transfer Proof",
      "End of Service Benefits Calculation Sheets"])])]

/-- `taxSchema[country]`: the country entry, `none` standing for JS
`undefined`. -/
def schemaLookup (c : String) : Option (List (String × List String)) :=
  (taxSchema.find? (fun p => p.1 == c)).map Prod.snd

/-- `countrySchema[category]`, `none` standing for JS `undefined`. -/
def categoryLookup (cs : List (String × List String)) (cat : String) :
    Option (List String) :=
  (cs.find? (fun p => p.1 == cat)).map Prod.snd

/-- Truthiness of `taxSchema[c]?.[cat]?.includes(t)`: false whenever either
lookup is `undefined`. -/
def memTax (c cat t : String) : Bool :=
  match schemaLookup c with
  | some cs =>
    match categoryLookup cs cat with
    | some ts => ts.contains t
    | none => false
  | none => false

/-- The mutable `details` record of the text-fallback branch of
`extractDocumentDetails` (lines 41-47): `none` stands for JS `null`. -/
structure Details where
  country : Option String
  documentType : Option String
  category : String
  subtype : Option String
  confidence_score : JSNumber
deriving DecidableEq

/-- Lines 49-61 of `use-document-classifier.ts`: run the five label regexes
over the raw response and fill `details` with the trimmed captures
(`category` keeps its `'CompanyDocuments'` initial value when its label is
absent, `confidence_score` keeps 0; a present confidence capture goes through
`parseFloat`). -/
def parseCandidate (raw : String) : Details :=
  let mc := findLabelCapture ("Country of Origin:").data raw.data
  let mt := findLabelCapture ("Document Type:").data raw.data
  let mcat := findLabelCapture ("Document Category:").data raw.data
  let ms := findLabelCapture ("Document Subtype:").data raw.data
  let mconf := findLabelCapture ("Confidence Score:").data raw.data
  { country := mc.map (fun v => trimJS (String.mk v))
    documentType := mt.map (fun v => trimJS (String.mk v))
    category :=
      match mcat with
      | some v => trimJS (String.mk v)
      | none => "CompanyDocuments"
    subtype := ms.map (fun v => trimJS (String.mk v))
    confidence_score :=
      match mconf with
      | some v => parseFloatJS (trimJS (String.mk v))
      | none => JSNumber.val 0 }

/-- JS truthiness of a string-or-null variable (`null`, `undefined` and the
empty string are falsy). -/
def optTruthy : Option String → Bool
  | none => false
  | some s => !(s == "")

/-- Lines 63-66: `if (details.country && !taxSchema[details.country])
details.country = null`. -/
def countryCheck (d : Details) : Details :=
  if optTruthy d.country && (schemaLookup (d.country.getD "")).isNone then
    { d with country := none }
  else d

/-- Lines 68-87: when both `country` and `documentType` are truthy and
`documentType` is not in `taxSchema[country][category]`, scan
`['CompanyDocuments', 'EmployeeDocuments']` in order for a category that
contains it; reassign `category` on the first hit, otherwise null
`documentType`. -/
def typeRepair (d : Details) : Details :=
  if optTruthy d.country && optTruthy d.documentType then
    let c := d.country.getD ""
    let t := d.documentType.getD ""
    if !(memTax c d.category t) then
      if memTax c ("CompanyDocuments") t then { d with category := "CompanyDocuments" }
      else if memTax c ("EmployeeDocuments") t then { d with category := "EmployeeDocuments" }
      else { d with documentType := none }
    else d
  else d

/-- The whole schema-validation block (lines 63-87). -/
def validateDetails (d : Details) : Details := typeRepair (countryCheck d)

/-- Lines 90-94: how many of the three status conditions are truthy —
`details.documentType && details.country`, the category enum check, and
`details.country !== null`. -/
def validFields (d : Details) : ℕ :=
  (if optTruthy d.documentType && optTruthy d.country then 1 else 0) +
  (if d.category == "CompanyDocuments" || d.category == "EmployeeDocuments" then 1 else 0) +
  (if d.country.isSome then 1 else 0)

/-- Lines 96-98: the derived lifecycle status. -/
def statusOf (d : Details) : String :=
  if 2 ≤ validFields d then "classified"
  else if validFields d = 1 then "pending_review"
  else "non_classified"

/-- The result record returned by `extractDocumentDetails`; fields hold
JavaScript values verbatim (the structured-JSON branch copies whatever the
decoded object held). -/
structure ClassificationResult where
  country : JSValue
  document_type : JSValue
  document_category : JSValue
  document_subtype : JSValue
  status : String
  confidence_score : JSValue

/-- A nullable string field of `details`, as it appears in the returned
result. -/
def optToJS : Option String → JSValue
  | none => JSValue.null
  | some s => JSValue.str s

/-- Lines 100-107: the result assembled from the validated `details`. -/
def resultOfDetails (d : Details) : ClassificationResult :=
  { country := optToJS d.country
    document_type := optToJS d.documentType
    document_category := JSValue.str d.category
    document_subtype := optToJS d.subtype
    status := statusOf d
    confidence_score := JSValue.num d.confidence_score }

/-- The whole text-fallback branch (lines 39-107): regex extraction, schema
validation, status policy. -/
def fallbackExtract (raw : String) : ClassificationResult :=
  resultOfDetails (validateDetails (parseCandidate raw))

/-- Property read `jsonResult[key]` for the five fixed label keys: throws a
`TypeError` (`none`) on `null`/`undefined`; on an object, the last binding
of the key or `undefined`; on any other value, `undefined` (none of the five
label keys is an array index, a string index, or `'length'`). -/
def lookupLast (fs : List (String × JSValue)) (k : String) : Option JSValue :=
  fs.foldl (fun acc p => if p.1 == k then some p.2 else acc) none

/-- See `lookupLast`; `none` models the thrown `TypeError`. -/
def jsGetProp : JSValue → String → Option JSValue
  | JSValue.null, _ => none
  | JSValue.undef, _ => none
  | JSValue.obj fs, k => some ((lookupLast fs k).getD JSValue.undef)
  | _, _ => some JSValue.undef

/-- Lines 31-38: the structured-JSON branch — copy the five keys verbatim
and fix `status` to `'classified'`; `none` when one of the property reads
throws (only possible for a decoded `null`), which the enclosing `catch`
turns into the text fallback. -/
def jsonDirect (j : JSValue) : Option ClassificationResult :=
  match jsGetProp j ("Country of Origin"), jsGetProp j ("Document Type"),
        jsGetProp j ("Document Category"), jsGetProp j ("Document Subtype"),
        jsGetProp j ("Confidence Score") with
  | some c, some t, some cat, some st, some cf =>
    some { country := c, document_type := t, document_category := cat,
           document_subtype := st, status := "classified", confidence_score := cf }
  | _, _, _, _, _ => none

/-- `extractDocumentDetails` (lines 26-120): try `JSON.parse`; on success
map the decoded keys directly, otherwise (parse throws, or the property
reads throw on a decoded `null`) run the text fallback.  The fallback is
total, so the outer catch-all (lines 109-119) is unreachable. -/
def extractDocumentDetails (raw : String) : ClassificationResult :=
  match jsonParse raw with
  | some j =>
    match jsonDirect j with
    | some r => r
    | none => fallbackExtract raw
  | none => fallbackExtract raw

/-- `CACHE_EXPIRATION` (line 18): 5 minutes in milliseconds. -/
def CACHE_EXPIRATION : ℕ := 5 * 60 * 1000

/-- An entry of the module-level `classificationCache` map (line 19). -/
structure CacheEntry where
  result : ClassificationResult
  timestamp : ℕ

/-- The mutable state touched by `classifyDocument`: the classification
cache, the `lastClassificationRef` in-flight marker, and the two React
states `isClassifying` and `error`. -/
structure ClassifierState where
  cache : List (String × CacheEntry)
  inflight : Option String
  isClassifying : Bool
  errorState : Option String

/-- `classificationCache.get(k)`. -/
def cacheGet (cache : List (String × CacheEntry)) (k : String) : Option CacheEntry :=
  (cache.find? (fun p => p.1 == k)).map Prod.snd

/-- `classificationCache.set(k, e)`: overwrite the existing binding or
append a new one (JS `Map` semantics). -/
def cacheSet : List (String × CacheEntry) → String → CacheEntry → List (String × CacheEntry)
  | [], k, e => [(k, e)]
  | p :: rest, k, e => if p.1 == k then (k, e) :: rest else p :: cacheSet rest k e

/-- Lines 127-130: the non-expired cached result for `k` at time `now`, if
any. -/
def cacheFresh (cache : List (String × CacheEntry)) (k : String) (now : ℕ) :
    Option ClassificationResult :=
  match cacheGet cache k with
  | some e => if now - e.timestamp < CACHE_EXPIRATION then some e.result else none
  | none => none

/-- The outcomes of the external effects of one `classifyDocument` call:
the clock, the configured API key, whether `fetch(fileUrl)` resolves with
`ok`, whether the model endpoint responds `ok`, and the
`choices[0].message.content` of its JSON body (`none` when absent). -/
structure ClassifyEnv where
  now : ℕ
  apiKey : Option String
  fileOk : Bool
  modelOk : Bool
  modelContent : Option String

/-- Result of one `classifyDocument` call: the settled promise, the final
mutable state, and the network requests issued (file URL and/or the model
endpoint), in order. -/
structure ClassifyOutcome where
  result : Except String ClassificationResult
  state : ClassifierState
  requests : List String

/-- The model endpoint URL (line 178). -/
def modelEndpoint : String := "https://openrouter.ai/api/v1/chat/completions"

/-- `classifyDocument` (lines 122-233): in-flight guard, cache check, then
the fetch → encode → model call → extract → cache pipeline, with the
`finally` block clearing `isClassifying` and the in-flight marker on every
path that entered the `try`.  Thrown errors become `Except.error` with the
thrown message (the upstream-error message is abbreviated to a fixed string,
the status code being outside the model). -/
def classifyDocument (env : ClassifyEnv) (st : ClassifierState) (fileUrl : String) :
    ClassifyOutcome :=
  if st.inflight == some fileUrl then
    { result := Except.error ("Classification already in progress"), state := st, requests := [] }
  else
    match cacheFresh st.cache fileUrl env.now with
    | some r => { result := Except.ok r, state := st, requests := [] }
    | none =>
      let st1 : ClassifierState :=
        { st with isClassifying := true, errorState := none, inflight := some fileUrl }
      match env.apiKey with
      | none =>
        { result := Except.error ("OpenRouter API key not configured")
          state := { st1 with isClassifying := false, inflight := none, errorState := some "OpenRouter API key not configured" }
          requests := [] }
      | some _ =>
        if !env.fileOk then
          { result := Except.error ("File not accessible")
            state := { st1 with isClassifying := false, inflight := none, errorState := some "File not accessible" }
            requests := [fileUrl] }
        else if !env.modelOk then
          { result := Except.error ("OpenRouter API error")
            state := { st1 with isClassifying := false, inflight := none, errorState := some "OpenRouter API error" }
            requests := [fileUrl, modelEndpoint] }
        else
          match env.modelContent with
          | none =>
            { result := Except.error ("Invalid response from OpenRouter API")
              state := { st1 with isClassifying := false, inflight := none, errorState := some "Invalid response from OpenRouter API" }
              requests := [fileUrl, modelEndpoint] }
          | some content =>
            let r := extractDocumentDetails content
            { result := Except.ok r
              state := { st1 with
                         cache := cacheSet st1.cache fileUrl { result := r, timestamp := env.now }
                         isClassifying := false, inflight := none }
              requests := [fileUrl, modelEndpoint] }

/-- A row of the `documents` table as used by `batchVerify` (only the fields
the control flow reads; the payload fields copied into the update/insert
requests are not tracked). -/
structure BatchDoc where
  id : String
  public_url : String
deriving DecidableEq

/-- External effects of one `batchVerify` call: the authenticated user, the
`documents` query result (`none` = `fetchError`), and per-document-index
oracles for the classification call's effects and for the documents-table
update outcome (the `document_activities` insert error is ignored by the
source, so it has no oracle). -/
structure BatchEnv where
  user : Option String
  docsResult : Option (List BatchDoc)
  envAt : ℕ → ClassifyEnv
  updateError : ℕ → Option String

/-- One document's settled outcome inside the `Promise.allSettled` join
(lines 252-298): cache pre-check, `classifyDocument`, then the documents
update (a failure anywhere rejects just this document). -/
def processDoc (env : ClassifyEnv) (upd : Option String) (st : ClassifierState)
    (doc : BatchDoc) : Bool × ClassifierState :=
  match cacheFresh st.cache doc.public_url env.now with
  | some _ => (true, st)
  | none =>
    let o := classifyDocument env st doc.public_url
    match o.result with
    | Except.error _ => (false, o.state)
    | Except.ok _ =>
      match upd with
      | some _ => (false, o.state)
      | none => (true, o.state)

/-- All documents' settled outcomes.  The `index * 1000 ms` staggered starts
make the per-document pipelines run one after the other, so the shared state
is threaded left to right; a rejection never stops the remaining
documents. -/
def processDocs : ℕ → (ℕ → ClassifyEnv) → (ℕ → Option String) → ClassifierState →
    List BatchDoc → List Bool × ClassifierState
  | _, _, _, st, [] => ([], st)
  | i, envAt, upd, st, d :: ds =>
    let p := processDoc (envAt i) (upd i) st d
    let q := processDocs (i + 1) envAt upd p.2 ds
    (p.1 :: q.1, q.2)

/-- `batchVerify` (lines 235-315): auth check, documents fetch, settle-all
processing, then the aggregate `{success, error?}` report; pre-dispatch
failures surface their own message with `success: false`. -/
def batchVerify (env : BatchEnv) (st : ClassifierState) :
    (Bool × Option String) × ClassifierState :=
  match env.user with
  | none =>
    ((false, some "Not authenticated"), { st with isClassifying := false, errorState := some "Not authenticated" })
  | some _ =>
    match env.docsResult with
    | none =>
      ((false, some "No documents found"), { st with isClassifying := false, errorState := some "No documents found" })
    | some docs =>
      if docs.isEmpty then
        ((false, some "No documents found"), { st with isClassifying := false, errorState := some "No documents found" })
      else
        let q := processDocs 0 env.envAt env.updateError
          { st with isClassifying := true, errorState := none } docs
        let successful := q.1.count true
        let failed := q.1.count false
        ((decide (0 < successful),
          if 0 < failed then some (toString failed ++ " documents failed to process") else none),
         { q.2 with isClassifying := false })

/-- Chat-history cache expiration (`use-document-chat.ts` line 25): 1
minute. -/
def CHAT_CACHE_EXPIRATION : ℕ := 60 * 1000

/-- A row of the `document_chat` table (`ChatMessage`, lines 4-16; the
optional `document_context` carries no control flow and is omitted). -/
structure ChatRow where
  id : String
  document_id : String
  user_id : String
  message : String
  is_user : Bool
  created_at : String
deriving DecidableEq

/-- An entry of the module-level `chatHistoryCache` (lines 19-22). -/
structure ChatCacheEntry where
  messages : List ChatRow
  timestamp : ℕ
deriving DecidableEq

/-- The mutable state touched by `getChatHistory`: the chat cache, the
`lastFetchRef` guard, the in-memory `messages` list and the `error` React
state. -/
structure ChatState where
  cache : List (String × ChatCacheEntry)
  lastFetch : Option String
  messages : List ChatRow
  errorState : Option String
deriving DecidableEq

/-- External effects of one `getChatHistory` call: the clock and the
`document_chat` query result (rows ordered by `created_at` ascending, or the
error message). -/
structure ChatEnv where
  now : ℕ
  queryResult : Except String (List ChatRow)

/-- `chatHistoryCache.get(k)` with the freshness test of line 41. -/
def chatCacheFresh (cache : List (String × ChatCacheEntry)) (k : String) (now : ℕ) :
    Option (List ChatRow) :=
  match (cache.find? (fun p => p.1 == k)).map Prod.snd with
  | some e => if now - e.timestamp < CHAT_CACHE_EXPIRATION then some e.messages else none
  | none => none

/-- `chatHistoryCache.set(k, e)`. -/
def chatCacheSet : List (String × ChatCacheEntry) → String → ChatCacheEntry →
    List (String × ChatCacheEntry)
  | [], k, e => [(k, e)]
  | p :: rest, k, e => if p.1 == k then (k, e) :: rest else p :: chatCacheSet rest k e

/-- `getChatHistory` (lines 33-72): same-document guard returning the held
list, cache check, then the transcript query; on success cache and publish
the rows, on failure record the message and return `[]`; the `finally`
clears the guard on both query paths. -/
def getChatHistory (env : ChatEnv) (st : ChatState) (documentId : String) :
    List ChatRow × ChatState :=
  if st.lastFetch == some documentId then (st.messages, st)
  else
    match chatCacheFresh st.cache documentId env.now with
    | some msgs => (msgs, { st with messages := msgs })
    | none =>
      let st1 := { st with lastFetch := some documentId }
      match env.queryResult with
      | Except.ok data =>
        (data, { st1 with
                 cache := chatCacheSet st1.cache documentId
                   { messages := data, timestamp := env.now }
                 messages := data, lastFetch := none })
      | Except.error e =>
        ([], { st1 with errorState := some e, lastFetch := none })

/-! Claim-side definitions: these follow the wording of the spec's claims
(for comparison with the source-derived functions above), plus the concrete
data used by witnesses and counterexamples. -/

/-- From claim C1 (amended): JS truthiness of a nullable string field of the
result record. -/
def claimFieldTruthy : JSValue → Bool
  | JSValue.str s => !(s == "")
  | _ => false

/-- From claim C1 (amended), condition (a): `documentType` and `country`
both truthy. -/
def claimCondA (r : ClassificationResult) : Bool :=
  claimFieldTruthy r.document_type && claimFieldTruthy r.country

/-- From claim C1, condition (b): `category` is one of the two valid enum
values. -/
def claimCondB (r : ClassificationResult) : Bool :=
  match r.document_category with
  | JSValue.str s => s == "CompanyDocuments" || s == "EmployeeDocuments"
  | _ => false

/-- From claim C1, condition (c): `country` is non-null. -/
def claimCondC (r : ClassificationResult) : Bool :=
  match r.country with
  | JSValue.null => false
  | _ => true

/-- From claim C1: how many of the three status conditions hold. -/
def claimCondCount (r : ClassificationResult) : ℕ :=
  (if claimCondA r then 1 else 0) + (if claimCondB r then 1 else 0) +
  (if claimCondC r then 1 else 0)

/-- From claim C2: the other of the two document categories. -/
def otherCategory (cat : String) : String :=
  if cat == "CompanyDocuments" then "EmployeeDocuments" else "CompanyDocuments"

/-- From claim C3: all five expected keys are present in the decoded
object. -/
def expectedKeysPresent (fs : List (String × JSValue)) : Bool :=
  (lookupLast fs ("Country of Origin")).isSome &&
  (lookupLast fs ("Document Type")).isSome &&
  (lookupLast fs ("Document Category")).isSome &&
  (lookupLast fs ("Document Subtype")).isSome &&
  (lookupLast fs ("Confidence Score")).isSome

/-- A classifier state with empty cache, no in-flight marker and clear React
state. -/
def emptyClassifierState : ClassifierState :=
  { cache := [], inflight := none, isClassifying := false, errorState := none }

/-- The JSON response used to witness claim C3: its `Document Type` is
absent from every taxonomy list. -/
def c3raw : String :=
  "\x7b\"Country of Origin\":\"Atlantis\",\"Document Type\":\"Fake Doc\",\"Document Category\":\"CompanyDocuments\",\"Document Subtype\":\"None\",\"Confidence Score\":\"0.99\"\x7d"

/-- The object `c3raw` decodes to. -/
def c3fs : List (String × JSValue) :=
  [("Country of Origin", JSValue.str ("Atlantis")),
   ("Document Type", JSValue.str ("Fake Doc")),
   ("Document Category", JSValue.str ("CompanyDocuments")),
   ("Document Subtype", JSValue.str ("None")),
   ("Confidence Score", JSValue.str ("0.99"))]

/-- A cached result used by the C6 counterexample. -/
def c6cxResult : ClassificationResult :=
  { country := JSValue.null, document_type := JSValue.null,
    document_category := JSValue.str ("CompanyDocuments"),
    document_subtype := JSValue.null, status := "non_classified",
    confidence_score := JSValue.num (JSNumber.val 0) }

/-- A classifier state whose cache holds `c6cxResult` for URL `"u"`, stored
at time 0. -/
def c6cxState : ClassifierState :=
  { cache := [(("u"), { result := c6cxResult, timestamp := 0 })], inflight := none,
    isClassifying := false, errorState := none }

/-- The three-document batch of the C9 witness. -/
def c9Docs : List BatchDoc := [⟨("d1"), ("u1")⟩, ⟨("d2"), ("u2")⟩, ⟨("d3"), ("u3")⟩]

/-- C9 witness environment: authenticated, three documents fetched, the
second document's file fetch fails, every database update succeeds. -/
def c9Env : BatchEnv :=
  { user := some ("uid"), docsResult := some c9Docs,
    envAt := fun i => { now := 1000 * i, apiKey := some ("k"), fileOk := !(i == 1),
                        modelOk := true, modelContent := some ("x") },
    updateError := fun _ => none }

/-! Theorems. -/

/-- The three claim-side conditions, counted on the assembled result, agree
with the `validFields` count the source computes on `details`. -/
theorem claimCondCount_eq_validFields (d : Details) :
    claimCondCount (resultOfDetails d) = validFields d := by
  rcases d with ⟨c, t, cat, s, conf⟩
  cases c <;> cases t <;>
    simp [claimCondCount, claimCondA, claimCondB, claimCondC, claimFieldTruthy,
      resultOfDetails, optToJS, validFields, optTruthy]

/-- C1 (amended): for every candidate produced by the text-fallback
extraction path, the derived status is `classified` iff at least two of the
three status conditions hold, `pending_review` iff exactly one, and
`non_classified` iff none — where condition (a) is read with JS truthiness
(`documentType` and `country` non-null *and non-empty*), matching the
source's `details.documentType && details.country`. -/
theorem c1_status_policy (raw : String) :
    (fallbackExtract raw).status =
      (if 2 ≤ claimCondCount (fallbackExtract raw) then "classified"
       else if claimCondCount (fallbackExtract raw) = 1 then "pending_review"
       else "non_classified") := by
  simp only [fallbackExtract]
  simp only [claimCondCount_eq_validFields]
  rfl

/-- C1 counterexample: on the raw fallback text
`"Country of Origin: India\nDocument Type: *\nDocument Category: Foo"` the
extraction yields a non-null `documentType` (the empty string, captured by
the backtracking `\s*([^\n*]+)` before the `*`) and a non-null `country`, so
conditions (a) and (c) of the claim hold and the claim requires
`classified`; the code counts condition (a) truthily, finds only one
condition, and returns `pending_review`. -/
theorem c1_counterexample :
    (extractDocumentDetails ("Country of Origin: India\nDocument Type: *\nDocument Category: Foo")).country = JSValue.str ("India") ∧
    (extractDocumentDetails ("Country of Origin: India\nDocument Type: *\nDocument Category: Foo")).document_type = JSValue.str ("") ∧
    (extractDocumentDetails ("Country of Origin: India\nDocument Type: *\nDocument Category: Foo")).status = "pending_review" ∧
    (extractDocumentDetails ("Country of Origin: India\nDocument Type: *\nDocument Category: Foo")).status ≠ "classified" :=
  ⟨rfl, rfl, rfl, by decide⟩

/-- C2 (amended): for every candidate on the text-fallback path whose
`country` is a valid taxonomy key and whose `documentType` is non-null *and
non-empty* (JS-truthy) but not a member of `taxonomy[country][category]`,
with `category` one of the two enum values: the validator reassigns
`category` to the other category (keeping `documentType`) when
`documentType` is in the other category's list for that country, otherwise
nulls `documentType`; `country` is unchanged either way. -/
theorem c2_validator (d : Details) (c t : String)
    (hc : d.country = some c) (hkey : (schemaLookup c).isSome = true)
    (ht : d.documentType = some t) (htruthy : t ≠ "")
    (hcat : d.category = "CompanyDocuments" ∨ d.category = "EmployeeDocuments")
    (hnot : memTax c d.category t = false) :
    (memTax c (otherCategory d.category) t = true →
      validateDetails d = { d with category := otherCategory d.category }) ∧
    (memTax c (otherCategory d.category) t = false →
      validateDetails d = { d with documentType := none }) ∧
    (validateDetails d).country = d.country := by
  have hcne : c ≠ "" := by
    rintro rfl
    revert hkey
    decide
  obtain ⟨cs, hcs⟩ := Option.isSome_iff_exists.mp hkey
  rcases d with ⟨dc, dt, dcat, ds, dconf⟩
  simp only at hc ht hcat hnot ⊢
  subst hc
  subst ht
  rcases hcat with h | h <;> subst h <;>
    cases hmem : memTax c ("EmployeeDocuments") t <;>
    cases hmem2 : memTax c ("CompanyDocuments") t <;>
    simp_all [validateDetails, countryCheck, typeRepair, optTruthy, otherCategory, hcs]

/-- C2 witness: for India, `"Aadhaar Card"` is not a company document but is
an employee document, so the validator reassigns the category and keeps the
type. -/
theorem c2_validator_witness :
    memTax ("India") ("EmployeeDocuments") ("Aadhaar Card") = true ∧
    validateDetails ⟨some ("India"), some ("Aadhaar Card"), "CompanyDocuments", none, JSNumber.val 0⟩ =
      ⟨some ("India"), some ("Aadhaar Card"), "EmployeeDocuments", none, JSNumber.val 0⟩ := by
  refine ⟨by decide, ?_⟩
  have h := (c2_validator
    ⟨some ("India"), some ("Aadhaar Card"), "CompanyDocuments", none, JSNumber.val 0⟩
    ("India") ("Aadhaar Card") rfl (by decide) rfl (by decide) (Or.inl rfl) (by decide)).1
    (by decide)
  exact h

/-- C2 counterexample: on raw text
`"Country of Origin: India\nDocument Type: *"` the captured `documentType`
trims to the empty string: it is non-null, `India` is a valid key, the empty
string is in neither category list, yet the validator is skipped (the empty
string is falsy) and `documentType` is *not* nulled, contradicting the claim
as stated. -/
theorem c2_counterexample :
    (extractDocumentDetails ("Country of Origin: India\nDocument Type: *")).country = JSValue.str ("India") ∧
    (schemaLookup ("India")).isSome = true ∧
    (extractDocumentDetails ("Country of Origin: India\nDocument Type: *")).document_type = JSValue.str ("") ∧
    memTax ("India") ("CompanyDocuments") ("") = false ∧
    memTax ("India") ("EmployeeDocuments") ("") = false ∧
    (extractDocumentDetails ("Country of Origin: India\nDocument Type: *")).document_type ≠ JSValue.null := by
  refine ⟨rfl, by decide, rfl, by decide, by decide, ?_⟩
  have he : (extractDocumentDetails ("Country of Origin: India\nDocument Type: *")).document_type = JSValue.str ("") := rfl
  rw [he]
  exact fun h => JSValue.noConfusion h

/-- C3: every raw response that decodes as a JSON object carrying the five
expected keys is mapped key-for-key to the result with `status` fixed to
`'classified'` and no taxonomy validation (the mapping below is verbatim,
for an arbitrary decoded object, so in particular a `documentType` absent
from the taxonomy is accepted as-is); the text fallback is not consulted. -/
theorem c3_json_bypass (raw : String) (fs : List (String × JSValue))
    (hp : jsonParse raw = some (JSValue.obj fs))
    (hk : expectedKeysPresent fs = true) :
    extractDocumentDetails raw =
      { country := (lookupLast fs ("Country of Origin")).getD JSValue.undef
        document_type := (lookupLast fs ("Document Type")).getD JSValue.undef
        document_category := (lookupLast fs ("Document Category")).getD JSValue.undef
        document_subtype := (lookupLast fs ("Document Subtype")).getD JSValue.undef
        status := "classified"
        confidence_score := (lookupLast fs ("Confidence Score")).getD JSValue.undef } ∧
    (extractDocumentDetails raw).status = "classified" := by
  have h1 : extractDocumentDetails raw =
      { country := (lookupLast fs ("Country of Origin")).getD JSValue.undef
        document_type := (lookupLast fs ("Document Type")).getD JSValue.undef
        document_category := (lookupLast fs ("Document Category")).getD JSValue.undef
        document_subtype := (lookupLast fs ("Document Subtype")).getD JSValue.undef
        status := "classified"
        confidence_score := (lookupLast fs ("Confidence Score")).getD JSValue.undef } := by
    unfold extractDocumentDetails
    rw [hp]
    rfl
  exact ⟨h1, by rw [h1]⟩

set_option maxRecDepth 8192 in
/-- C3 witness: a JSON response naming country `"Atlantis"` and type
`"Fake Doc"`, neither of which the taxonomy knows, is accepted verbatim with
status `classified`. -/
theorem c3_json_bypass_witness :
    jsonParse c3raw = some (JSValue.obj c3fs) ∧
    expectedKeysPresent c3fs = true ∧
    (extractDocumentDetails c3raw).status = "classified" ∧
    (extractDocumentDetails c3raw).document_type = JSValue.str ("Fake Doc") ∧
    memTax ("Atlantis") ("CompanyDocuments") ("Fake Doc") = false := by
  refine ⟨rfl, by decide, (c3_json_bypass c3raw c3fs rfl (by decide)).2, ?_, by decide⟩
  rw [(c3_json_bypass c3raw c3fs rfl (by decide)).1]
  rfl

/-- The country key check never touches `documentType`. -/
theorem countryCheck_documentType (d : Details) :
    (countryCheck d).documentType = d.documentType := by
  unfold countryCheck
  split <;> rfl

/-- The country key check never touches `category`. -/
theorem countryCheck_category (d : Details) :
    (countryCheck d).category = d.category := by
  unfold countryCheck
  split <;> rfl

/-- C4 (amended): on the text-fallback path the resulting `category` is the
captured trimmed value when the `Document Category` label is present — even
when that value is not one of the two recognized categories — and
`'CompanyDocuments'` when the label is absent, provided the validator's
reassignment step does not fire (i.e. `country` after the key check or
`documentType` is not truthy); when it fires, the category can instead be
reassigned to a category that contains `documentType`. -/
theorem c4_category_verbatim (raw : String)
    (h : (optTruthy (countryCheck (parseCandidate raw)).country &&
          optTruthy (parseCandidate raw).documentType) = false) :
    (fallbackExtract raw).document_category =
      JSValue.str (match findLabelCapture ("Document Category:").data raw.data with
        | some v => trimJS (String.mk v)
        | none => "CompanyDocuments") := by
  have hguard : (optTruthy (countryCheck (parseCandidate raw)).country &&
      optTruthy (countryCheck (parseCandidate raw)).documentType) = false := by
    rw [countryCheck_documentType]
    exact h
  have hrepair : typeRepair (countryCheck (parseCandidate raw)) =
      countryCheck (parseCandidate raw) := by
    unfold typeRepair
    rw [hguard]
    simp
  show (resultOfDetails (validateDetails (parseCandidate raw))).document_category = _
  unfold validateDetails
  rw [hrepair]
  rw [show (resultOfDetails (countryCheck (parseCandidate raw))).document_category =
    JSValue.str ((countryCheck (parseCandidate raw)).category) from rfl]
  rw [countryCheck_category]
  rfl

/-- C4 witness: `"Document Category: Foo"` has no country and no type, so
the validator does not fire and the unrecognized captured value `"Foo"` is
kept verbatim. -/
theorem c4_category_verbatim_witness :
    (optTruthy (countryCheck (parseCandidate ("Document Category: Foo"))).country &&
     optTruthy (parseCandidate ("Document Category: Foo")).documentType) = false ∧
    (fallbackExtract ("Document Category: Foo")).document_category = JSValue.str ("Foo") :=
  ⟨by decide, c4_category_verbatim ("Document Category: Foo") (by decide)⟩

/-- C4 counterexample: on `"Document Category: Foo"` the label is present
and its captured value `"Foo"` is not one of the two recognized categories,
so the claim requires the default `'CompanyDocuments'`; the code stores the
unrecognized value verbatim. -/
theorem c4_counterexample :
    (findLabelCapture ("Document Category:").data ("Document Category: Foo").data).isSome = true ∧
    (extractDocumentDetails ("Document Category: Foo")).document_category = JSValue.str ("Foo") ∧
    (extractDocumentDetails ("Document Category: Foo")).document_category ≠ JSValue.str ("CompanyDocuments") ∧
    (extractDocumentDetails ("Document Category: Foo")).document_category ≠ JSValue.str ("EmployeeDocuments") := by
  refine ⟨by decide, rfl, ?_, ?_⟩ <;>
  · have he : (extractDocumentDetails ("Document Category: Foo")).document_category = JSValue.str ("Foo") := rfl
    rw [he]
    simp only [ne_eq, JSValue.str.injEq]
    decide

/-- The schema-validation block never touches `confidence_score`. -/
theorem validateDetails_confidence (d : Details) :
    (validateDetails d).confidence_score = d.confidence_score := by
  unfold validateDetails typeRepair countryCheck
  dsimp only
  repeat' split
  all_goals rfl

/-- C5 (amended): on the text-fallback path `confidenceScore` is 0 when the
`Confidence Score` label is absent; when the label is present the captured
trimmed value goes through `parseFloat`, so a value that does not parse as a
float yields `NaN` — not 0. -/
theorem c5_confidence (raw : String) :
    (findLabelCapture ("Confidence Score:").data raw.data = none →
      (fallbackExtract raw).confidence_score = JSValue.num (JSNumber.val 0)) ∧
    (∀ v, findLabelCapture ("Confidence Score:").data raw.data = some v →
      (fallbackExtract raw).confidence_score =
        JSValue.num (parseFloatJS (trimJS (String.mk v)))) := by
  have hcs : (fallbackExtract raw).confidence_score =
      JSValue.num ((parseCandidate raw).confidence_score) := by
    show (resultOfDetails (validateDetails (parseCandidate raw))).confidence_score = _
    rw [show (resultOfDetails (validateDetails (parseCandidate raw))).confidence_score =
      JSValue.num ((validateDetails (parseCandidate raw)).confidence_score) from rfl]
    rw [validateDetails_confidence]
  constructor
  · intro h
    rw [hcs]
    simp only [parseCandidate]
    rw [h]
  · intro v hv
    rw [hcs]
    simp only [parseCandidate]
    rw [hv]

/-- C5 witness: a response with no `Confidence Score` label keeps the
default 0. -/
theorem c5_confidence_witness :
    findLabelCapture ("Confidence Score:").data ("hello").data = none ∧
    (fallbackExtract ("hello")).confidence_score = JSValue.num (JSNumber.val 0) :=
  ⟨rfl, (c5_confidence ("hello")).1 rfl⟩

/-- C5 counterexample: on `"Confidence Score: unknown"` the label is present
but its value does not parse as a float; the claim requires 0, the code
stores `parseFloat('unknown') = NaN`. -/
theorem c5_counterexample :
    (findLabelCapture ("Confidence Score:").data ("Confidence Score: unknown").data).isSome = true ∧
    (extractDocumentDetails ("Confidence Score: unknown")).confidence_score = JSValue.num JSNumber.nan ∧
    (extractDocumentDetails ("Confidence Score: unknown")).confidence_score ≠ JSValue.num (JSNumber.val 0) := by
  refine ⟨by decide, rfl, ?_⟩
  have he : (extractDocumentDetails ("Confidence Score: unknown")).confidence_score =
      JSValue.num JSNumber.nan := rfl
  rw [he]
  simp only [ne_eq, JSValue.num.injEq]
  decide

/-- `Map.set` then `Map.get` on the same key. -/
theorem cacheGet_cacheSet (c : List (String × CacheEntry)) (k : String) (e : CacheEntry) :
    cacheGet (cacheSet c k e) k = some e := by
  induction c with
  | nil => simp [cacheGet, cacheSet]
  | cons p rest ih =>
    by_cases h : p.1 = k
    · simp [cacheGet, cacheSet, h]
    · have hb : (p.1 == k) = false := beq_eq_false_iff_ne.mpr h
      simpa [cacheGet, cacheSet, hb] using ih

/-- A `classifyDocument` call that misses the cache and succeeds took the
full pipeline: it issued both requests, cached its result under the call's
timestamp and cleared the in-flight marker and the React states. -/
theorem classify_ok_state (env : ClassifyEnv) (st : ClassifierState) (fileUrl : String)
    (r : ClassificationResult)
    (hmiss : cacheFresh st.cache fileUrl env.now = none)
    (hok : (classifyDocument env st fileUrl).result = Except.ok r) :
    classifyDocument env st fileUrl =
      { result := Except.ok r
        state := { cache := cacheSet st.cache fileUrl { result := r, timestamp := env.now }
                   inflight := none, isClassifying := false, errorState := none }
        requests := [fileUrl, modelEndpoint] } := by
  unfold classifyDocument at hok ⊢
  rw [hmiss] at hok ⊢
  cases hih : st.inflight == some fileUrl <;>
    cases hk : env.apiKey <;>
    cases hf : env.fileOk <;>
    cases hm : env.modelOk <;>
    cases hmc : env.modelContent <;>
    simp_all

/-- C6 (amended): if `classify(fileUrl)` completes successfully *via a fresh
classification* (its cache lookup missed, so it stored its own result), then
a second call within 5 minutes and with no intervening cache clear returns
the identical `ClassificationResult` from the cache, leaves the state
untouched and issues no network request. -/
theorem c6_cache_idempotent (env1 env2 : ClassifyEnv) (st : ClassifierState)
    (fileUrl : String) (r : ClassificationResult)
    (hmiss : cacheFresh st.cache fileUrl env1.now = none)
    (hok : (classifyDocument env1 st fileUrl).result = Except.ok r)
    (hwin : env2.now - env1.now < CACHE_EXPIRATION) :
    classifyDocument env2 (classifyDocument env1 st fileUrl).state fileUrl =
      { result := Except.ok r, state := (classifyDocument env1 st fileUrl).state,
        requests := [] } := by
  rw [classify_ok_state env1 st fileUrl r hmiss hok]
  have hfresh : cacheFresh (cacheSet st.cache fileUrl { result := r, timestamp := env1.now })
      fileUrl env2.now = some r := by
    unfold cacheFresh
    rw [cacheGet_cacheSet]
    simp [hwin]
  unfold classifyDocument
  rw [hfresh]
  rfl

/-- C6 witness: a fresh classification at time 0 followed by a second call
at time 1000 ms returns the cached result with no requests. -/
theorem c6_cache_idempotent_witness :
    (1000 : ℕ) - 0 < CACHE_EXPIRATION ∧
    classifyDocument ⟨1000, some ("k"), true, true, some ("x")⟩
        (classifyDocument ⟨0, some ("k"), true, true, some ("x")⟩ emptyClassifierState ("u")).state ("u") =
      { result := Except.ok (extractDocumentDetails ("x"))
        state := (classifyDocument ⟨0, some ("k"), true, true, some ("x")⟩ emptyClassifierState ("u")).state
        requests := [] } :=
  ⟨by decide,
   c6_cache_idempotent ⟨0, some ("k"), true, true, some ("x")⟩
     ⟨1000, some ("k"), true, true, some ("x")⟩ emptyClassifierState ("u")
     (extractDocumentDetails ("x")) rfl rfl (by decide)⟩

/-- C6 counterexample: the first call is served from a cache entry stored at
time 0 and succeeds at time 299999; the second call comes 2 ms later — well
within 5 minutes of the first call, with no intervening cache clear — but
the entry is now expired, so the second call issues network requests,
contradicting the claim as stated. -/
theorem c6_counterexample :
    (classifyDocument ⟨299999, some ("k"), true, true, some ("x")⟩ c6cxState ("u")).result =
      Except.ok c6cxResult ∧
    (classifyDocument ⟨299999, some ("k"), true, true, some ("x")⟩ c6cxState ("u")).requests = [] ∧
    (300001 : ℕ) - 299999 < CACHE_EXPIRATION ∧
    (classifyDocument ⟨300001, some ("k"), true, true, some ("x")⟩
        (classifyDocument ⟨299999, some ("k"), true, true, some ("x")⟩ c6cxState ("u")).state
        ("u")).requests = [("u"), modelEndpoint] ∧
    ([("u"), modelEndpoint] : List String) ≠ [] :=
  ⟨rfl, rfl, by decide, rfl, by decide⟩

/-- C7: a `classify(fileUrl)` call made while the in-flight marker holds the
same `fileUrl` is rejected immediately with the
`'Classification already in progress'` error, issues no request and leaves
the state untouched (the call is rejected, not queued). -/
theorem c7_single_flight (env : ClassifyEnv) (st : ClassifierState) (fileUrl : String)
    (h : st.inflight = some fileUrl) :
    classifyDocument env st fileUrl =
      { result := Except.error ("Classification already in progress"), state := st,
        requests := [] } := by
  unfold classifyDocument
  rw [h]
  simp

/-- C7 witness: a concrete in-flight rejection. -/
theorem c7_single_flight_witness :
    classifyDocument ⟨0, none, false, false, none⟩ ⟨[], some ("u"), false, none⟩ ("u") =
      { result := Except.error ("Classification already in progress")
        state := ⟨[], some ("u"), false, none⟩, requests := [] } :=
  c7_single_flight ⟨0, none, false, false, none⟩ ⟨[], some ("u"), false, none⟩ ("u") rfl

/-- C8: every `classifyDocument` call leaves the in-flight marker either
cleared or exactly as it found it (it never leaves its own marker behind),
and a call that actually entered the pipeline — no early rejection for this
`fileUrl`, no cache hit — always terminates with the marker cleared, on
success and on every failure path, so a later call is never blocked by a
completed one. -/
theorem c8_inflight_cleared (env : ClassifyEnv) (st : ClassifierState) (fileUrl : String) :
    ((classifyDocument env st fileUrl).state.inflight = none ∨
     (classifyDocument env st fileUrl).state.inflight = st.inflight) ∧
    (st.inflight ≠ some fileUrl → cacheFresh st.cache fileUrl env.now = none →
      (classifyDocument env st fileUrl).state.inflight = none) := by
  constructor
  · unfold classifyDocument
    cases hih : st.inflight == some fileUrl
    · cases hcf : cacheFresh st.cache fileUrl env.now
      · cases hk : env.apiKey <;> cases hf : env.fileOk <;> cases hm : env.modelOk <;>
          cases hmc : env.modelContent <;> simp_all
      · simp_all
    · simp_all
  · intro h1 h2
    have hih : (st.inflight == some fileUrl) = false := beq_eq_false_iff_ne.mpr h1
    unfold classifyDocument
    rw [h2]
    cases hk : env.apiKey <;> cases hf : env.fileOk <;> cases hm : env.modelOk <;>
      cases hmc : env.modelContent <;> simp_all

/-- C8 witness: a fresh call (auth key missing, so it fails) still ends with
the marker cleared. -/
theorem c8_inflight_cleared_witness :
    (classifyDocument ⟨0, none, false, false, none⟩ emptyClassifierState ("u")).state.inflight = none :=
  (c8_inflight_cleared ⟨0, none, false, false, none⟩ emptyClassifierState ("u")).2
    (by decide) rfl

/-- The settle-all join produces one outcome per document: a rejection never
short-circuits the remaining documents. -/
theorem processDocs_length (i : ℕ) (envAt : ℕ → ClassifyEnv) (upd : ℕ → Option String)
    (st : ClassifierState) (docs : List BatchDoc) :
    (processDocs i envAt upd st docs).1.length = docs.length := by
  induction docs generalizing i st with
  | nil => rfl
  | cons d ds ih => simp [processDocs, ih]

/-- C9: for a batch that is loaded and dispatched (authenticated user,
non-empty document fetch), `batchVerify` settles every document (one outcome
per document, no short-circuit) and reports `success` exactly when at least
one document succeeded, with `error = "<N> documents failed to process"`
when `N > 0` documents failed and no error field when none failed. -/
theorem c9_batch_settle (env : BatchEnv) (st : ClassifierState) (docs : List BatchDoc)
    (hu : env.user.isSome = true) (hd : env.docsResult = some docs) (hne : docs ≠ []) :
    (batchVerify env st).1 =
      (decide (0 < (processDocs 0 env.envAt env.updateError
          { st with isClassifying := true, errorState := none } docs).1.count true),
       if 0 < (processDocs 0 env.envAt env.updateError
          { st with isClassifying := true, errorState := none } docs).1.count false
       then some (toString ((processDocs 0 env.envAt env.updateError
          { st with isClassifying := true, errorState := none } docs).1.count false) ++
          " documents failed to process")
       else none) ∧
    (processDocs 0 env.envAt env.updateError
        { st with isClassifying := true, errorState := none } docs).1.length = docs.length := by
  obtain ⟨u, hu2⟩ := Option.isSome_iff_exists.mp hu
  refine ⟨?_, processDocs_length 0 env.envAt env.updateError _ docs⟩
  unfold batchVerify
  rw [hu2, hd]
  have hne2 : docs.isEmpty = false := by
    cases docs
    · exact absurd rfl hne
    · rfl
  dsimp only
  rw [hne2]
  rfl

/-- C9 witness: the spec's own scenario — a batch of three documents of
which the second fails upstream settles all three and reports
`{success: true, error: "1 documents failed to process"}`. -/
theorem c9_batch_settle_witness :
    c9Docs ≠ [] ∧
    (batchVerify c9Env emptyClassifierState).1 = (true, some ("1 documents failed to process")) := by
  refine ⟨by decide, ?_⟩
  have h := (c9_batch_settle c9Env emptyClassifierState c9Docs rfl rfl (by decide)).1
  rw [h]
  decide

/-- C10: when the transcript query of `getChatHistory` fails (guard passed,
cache missed, query errored), the error is not propagated: the call returns
the empty list, records the message in the hook's error state and leaves the
chat-history cache unchanged. -/
theorem c10_chat_error_swallowed (env : ChatEnv) (st : ChatState) (documentId msg : String)
    (hguard : st.lastFetch ≠ some documentId)
    (hmiss : chatCacheFresh st.cache documentId env.now = none)
    (hq : env.queryResult = Except.error msg) :
    (getChatHistory env st documentId).1 = [] ∧
    (getChatHistory env st documentId).2.errorState = some msg ∧
    (getChatHistory env st documentId).2.cache = st.cache := by
  have hb : (st.lastFetch == some documentId) = false := beq_eq_false_iff_ne.mpr hguard
  unfold getChatHistory
  rw [hb, hmiss, hq]
  simp

/-- C10 witness: a failing transcript query on an empty state. -/
theorem c10_chat_error_swallowed_witness :
    (getChatHistory ⟨0, Except.error ("boom")⟩ ⟨[], none, [], none⟩ ("doc1")).1 = [] ∧
    (getChatHistory ⟨0, Except.error ("boom")⟩ ⟨[], none, [], none⟩ ("doc1")).2.errorState = some ("boom") ∧
    (getChatHistory ⟨0, Except.error ("boom")⟩ ⟨[], none, [], none⟩ ("doc1")).2.cache =
      ([] : List (String × ChatCacheEntry)) :=
  c10_chat_error_swallowed ⟨0, Except.error ("boom")⟩ ⟨[], none, [], none⟩ ("doc1") ("boom")
    (by decide) rfl rfl
